import Mathlib

/-!
# Verification of the thermal simulator core (`src/thermal.js`)

Shallow embedding of the atmospheric-profile storage, the meteorological
formulas, and the thermal-ascent simulator of `thermal.js`, over exact
rationals.  JavaScript numbers are idealised as `ℚ`; the two transcendental
primitives the source uses (`Math.log` for the base-10 logarithm inside
`getDewPoint`, and `Math.pow` with the non-integer exponent `5.257` inside
`getPressureAtAltitude`) are threaded through the development as an abstract
parameter record `MathPrims`, since their values never influence any of the
properties proved here.  Fallible JavaScript code (property access on
`undefined` throws a `TypeError`) is modelled with `Option`: `none` is an
abnormal termination of the corresponding JavaScript call.
-/

set_option maxRecDepth 1000000

unseal Rat.add Rat.mul Rat.sub Rat.inv Rat.ofScientific

namespace ThermalMagic

/-- The two transcendental primitives of the source, kept abstract:
`log10` stands for `Math.log x / Math.log 10` and `powQ` for `Math.pow`
with a fractional exponent. -/
structure MathPrims where
  log10 : ℚ → ℚ
  powQ : ℚ → ℚ → ℚ

/-- `getPressureAtAltitude` of thermal.js: hypsometric approximation. -/
def getPressureAtAltitude (m : MathPrims) (groundP altitude temperature : ℚ) : ℚ :=
  groundP * m.powQ (1 - (0.0065 * altitude) / (temperature + 0.0065 * altitude + 273.15)) 5.257

/-- `getSaturatedDensityFor` of thermal.js: empirical cubic fit for the
saturated vapor density (g/m³) at a temperature (°C). -/
def getSaturatedDensityFor (temperature : ℚ) : ℚ :=
  5.018 + 0.32321 * temperature + 8.1847 * 0.001 * temperature * temperature
    + 3.1243 * 0.0001 * temperature ^ 3

/-- `getRelativeHumidity` of thermal.js.  The `altitude` and `pressure`
parameters are accepted but unused, exactly as in the source. -/
def getRelativeHumidity (absolute altitude pressure temperature : ℚ) : ℚ :=
  absolute / getSaturatedDensityFor temperature

/-- `getDewPoint` of thermal.js (Magnus-type inversion). -/
def getDewPoint (m : MathPrims) (temperature relativeHumidity : ℚ) : ℚ :=
  let H := (m.log10 (relativeHumidity * 100) - 2) / 0.4343
    + (17.62 * temperature) / (243.12 + temperature)
  243.12 * H / (17.62 - H)

/-- The dynamic field names used with `getDataAt` / `setDataAt`. -/
inductive Field where
  | temp
  | wind
  | humidity
  | dewPoint
deriving DecidableEq, Repr

/-- One entry of `weatherStack`: the object built by `MeteoData` /
`AutoMeteoData` in thermal.js. -/
structure Sample where
  alt : ℚ
  temp : ℚ
  wind : ℚ
  humidity : ℚ
  dewPoint : ℚ
deriving DecidableEq, Repr

/-- Dynamic read `sample[fieldName]`. -/
def Sample.get (s : Sample) : Field → ℚ
  | .temp => s.temp
  | .wind => s.wind
  | .humidity => s.humidity
  | .dewPoint => s.dewPoint

/-- Dynamic write `sample[fieldName] = value`. -/
def Sample.set (s : Sample) : Field → ℚ → Sample
  | .temp, v => { s with temp := v }
  | .wind, v => { s with wind := v }
  | .humidity, v => { s with humidity := v }
  | .dewPoint, v => { s with dewPoint := v }

/-- The loop of `getDataAt`, scanning the stack in order while remembering
the last sample strictly below the requested altitude.  The first sample
strictly above the altitude stops the scan and triggers the interpolation;
a missing `below` or `above` is the JavaScript `TypeError` (`none`). -/
def getDataAtGo (altitude : ℚ) (f : Field) : Option Sample → List Sample → Option ℚ
  | _, [] => none
  | below, curr :: rest =>
    if curr.alt = altitude then
      some (curr.get f)
    else if curr.alt < altitude then
      getDataAtGo altitude f (some curr) rest
    else
      match below with
      | none => none
      | some b =>
        some (b.get f + ((altitude - b.alt) / (curr.alt - b.alt)) * (curr.get f - b.get f))

/-- `getDataAt` of thermal.js, with the global `weatherStack` made explicit. -/
def getDataAt (stack : List Sample) (altitude : ℚ) (f : Field) : Option ℚ :=
  getDataAtGo altitude f none stack

/-- `getTemperatureAt` of thermal.js. -/
def getTemperatureAt (stack : List Sample) (altitude : ℚ) : Option ℚ :=
  getDataAt stack altitude .temp

/-- `getWindAt` of thermal.js. -/
def getWindAt (stack : List Sample) (altitude : ℚ) : Option ℚ :=
  getDataAt stack altitude .wind

/-- `getAbsoluteHumidityAt` of thermal.js. -/
def getAbsoluteHumidityAt (stack : List Sample) (altitude : ℚ) : Option ℚ :=
  getDataAt stack altitude .humidity

/-- `getDewPointAt` of thermal.js: derives the dew point at an altitude from
the interpolated temperature and absolute humidity. -/
def getDewPointAt (m : MathPrims) (groundPressure : ℚ) (stack : List Sample)
    (altitude : ℚ) : Option ℚ := do
  let temperature ← getTemperatureAt stack altitude
  let ah ← getAbsoluteHumidityAt stack altitude
  pure (getDewPoint m temperature
    (getRelativeHumidity ah altitude
      (getPressureAtAltitude m groundPressure altitude temperature) temperature))

/-- The `MeteoData` constructor of thermal.js. -/
def MeteoData (m : MathPrims) (groundPressure : ℚ)
    (altitude temperature wind humidity : ℚ) : Sample :=
  { alt := altitude
    temp := temperature
    wind := wind
    humidity := humidity
    dewPoint := getDewPoint m temperature
      (getRelativeHumidity humidity altitude
        (getPressureAtAltitude m groundPressure altitude temperature) temperature) }

/-- The `AutoMeteoData` constructor of thermal.js: synthesizes a sample at an
altitude with every field interpolated/derived from the existing stack.  Any
failing interpolation aborts the construction (`none`), as the thrown
`TypeError` would. -/
def AutoMeteoData (m : MathPrims) (groundPressure : ℚ) (stack : List Sample)
    (altitude : ℚ) : Option Sample := do
  let temp ← getTemperatureAt stack altitude
  let wind ← getWindAt stack altitude
  let humidity ← getAbsoluteHumidityAt stack altitude
  let dewPoint ← getDewPointAt m groundPressure stack altitude
  pure { alt := altitude, temp := temp, wind := wind, humidity := humidity,
         dewPoint := dewPoint }

/-- The loop of `setDataAt`.  `.inl stack` means the loop hit an exact-altitude
sample and mutated the named field in place (returning the whole mutated
stack); `.inr below` means the loop finished (or broke at the first sample
above the altitude) with `below` the index of the last sample strictly below
the altitude, `none` when no such sample was encountered. -/
def setDataAtGo (altitude : ℚ) (f : Field) (value : ℚ) :
    ℕ → Option ℕ → List Sample → Sum (List Sample) (Option ℕ)
  | _, below, [] => .inr below
  | i, below, curr :: rest =>
    if curr.alt = altitude then
      .inl (curr.set f value :: rest)
    else if curr.alt < altitude then
      match setDataAtGo altitude f value (i + 1) (some i) rest with
      | .inl rest2 => .inl (curr :: rest2)
      | .inr b => .inr b
    else
      .inr below

/-- `array.splice(i, 0, x)` of JavaScript: insert `x` before index `i`
(an `undefined` index is coerced to `0`). -/
def spliceInsert (i : Option ℕ) (x : Sample) (l : List Sample) : List Sample :=
  l.take (i.getD 0) ++ x :: l.drop (i.getD 0)

/-- `setDataAt` of thermal.js: in-place update of an exact-altitude sample, or
synthesis of a new sample via `AutoMeteoData` followed by
`weatherStack.splice(below, 0, newField)`. -/
def setDataAt (m : MathPrims) (groundPressure : ℚ) (stack : List Sample)
    (altitude : ℚ) (f : Field) (value : ℚ) : Option (List Sample) :=
  match setDataAtGo altitude f value 0 none stack with
  | .inl stack2 => some stack2
  | .inr below =>
    (AutoMeteoData m groundPressure stack altitude).map
      (fun newField => spliceInsert below (newField.set f value) stack)

/-- Strict ascending order of a stack by `alt`: the documented invariant of
`weatherStack`. -/
def sortedAlt (stack : List Sample) : Prop :=
  List.Chain' (fun a b => a.alt < b.alt) stack

/-- Executable check of `sortedAlt`. -/
def sortedAltB : List Sample → Bool
  | [] => true
  | [_] => true
  | a :: b :: rest => decide (a.alt < b.alt) && sortedAltB (b :: rest)

theorem sortedAlt_iff_sortedAltB : ∀ (stack : List Sample), sortedAlt stack ↔ sortedAltB stack = true
  | [] => by simp [sortedAlt, sortedAltB]
  | [a] => by simp [sortedAlt, sortedAltB]
  | a :: b :: rest => by
    rw [sortedAlt, List.chain'_cons, sortedAltB]
    rw [Bool.and_eq_true, decide_eq_true_eq]
    exact and_congr Iff.rfl (sortedAlt_iff_sortedAltB (b :: rest))

instance (stack : List Sample) : Decidable (sortedAlt stack) :=
  decidable_of_iff _ (sortedAlt_iff_sortedAltB stack).symm

/-! ## The thermal ascent simulator (`getThermalData`) -/

/-- `calculationResolution` of thermal.js (a tweakable never changed by the
UI wiring, so constant `100`). -/
def calculationResolution : ℚ := 100

/-- `calculationsMaxHeight` of thermal.js. -/
def calculationsMaxHeight : ℚ := 10000

/-- `thermalInitialImpulse` of thermal.js. -/
def thermalInitialImpulse : ℚ := 1.8

/-- `thermalStagnantGradient` of thermal.js. -/
def thermalStagnantGradient : ℚ := -0.39

/-- `thermalImpulseTangentRatio` of thermal.js. -/
def thermalImpulseTangentRatio : ℚ := 0.4

/-- `condensationCompensation` of thermal.js. -/
def condensationCompensation : ℚ := 0.38

/-- `inversionCompensation` of thermal.js. -/
def inversionCompensation : ℚ := 2.5

/-- The `prev` record tracked by the simulation loop. -/
structure PrevPoint where
  alt : ℚ
  temp : ℚ
  relHumi : ℚ
deriving DecidableEq, Repr

/-- The mutable state of the `getThermalData` loop: the `data` object under
construction plus `impulse` and `prev`. -/
structure RunState where
  thermalTop : ℚ
  cloudBase : ℚ
  strength : List (ℚ × ℚ)
  impulse : ℚ
  prev : PrevPoint
deriving DecidableEq, Repr

/-- The `data` object returned by `getThermalData`. -/
structure ThermalData where
  thermalTop : ℚ
  cloudBase : ℚ
  strength : List (ℚ × ℚ)
deriving DecidableEq, Repr

/-- The altitude of the `k`-th loop iteration (0-indexed):
`calculationResolution * (k+1)`. -/
def altK (k : ℕ) : ℚ := calculationResolution * (k + 1)

/-- One body execution of the `getThermalData` loop at `altitude`:
`.inl` is the fall-through to the next iteration, `.inr` the `break` after
`thermalTop` is recorded. -/
def thermalStep (m : MathPrims) (stack : List Sample) (gah gp : ℚ)
    (st : RunState) (altitude : ℚ) : Option (Sum RunState RunState) := do
  let temp ← getTemperatureAt stack altitude
  let currRelHumi := getRelativeHumidity gah altitude
    (getPressureAtAltitude m gp altitude temp) temp
  let gradient := (temp - st.prev.temp) * (calculationResolution / 100)
  let cloudBase :=
    if 1 ≤ currRelHumi ∧ st.cloudBase = calculationsMaxHeight then
      st.prev.alt + ((1 - st.prev.relHumi) / (currRelHumi - st.prev.relHumi))
        * (altitude - st.prev.alt)
    else st.cloudBase
  let compensationOffset :=
    if altitude < cloudBase then 0
    else (altitude - st.prev.alt) * (condensationCompensation / 100)
  let compensationMulti := if gradient < 0 then 1 else inversionCompensation
  let impulse := st.impulse
    + (thermalStagnantGradient - gradient) * thermalImpulseTangentRatio * compensationMulti
    - compensationOffset
  let strength := st.strength ++ [(altitude, impulse)]
  if impulse < 0 then
    pure (.inr { st with thermalTop := altitude, cloudBase := cloudBase,
                         strength := strength, impulse := impulse })
  else
    pure (.inl { thermalTop := st.thermalTop, cloudBase := cloudBase,
                 strength := strength, impulse := impulse,
                 prev := { alt := altitude, temp := temp, relHumi := currRelHumi } })

/-- The termination bound of the loop: iteration `k` runs only while
`altK k < calculationsMaxHeight`, i.e. `k < 99`. -/
theorem altK_lt_iff (k : ℕ) : altK k < calculationsMaxHeight ↔ k < 99 := by
  unfold altK calculationResolution calculationsMaxHeight
  constructor
  · intro h
    by_contra hk
    push_neg at hk
    have : (99 : ℚ) ≤ (k : ℚ) := by exact_mod_cast hk
    nlinarith
  · intro hk
    have : (k : ℚ) < 99 := by exact_mod_cast hk
    nlinarith

/-- The `for` loop of `getThermalData`, starting at iteration `k`
(altitude `altK k`) and running while `altitude < calculationsMaxHeight`.
The `fuel` argument only makes the recursion structural (so that the kernel
can evaluate it); the top-level call passes fuel `100`, which the loop guard
(`altK_lt_iff`) proves can never be exhausted. -/
def runFrom (m : MathPrims) (stack : List Sample) (gah gp : ℚ) :
    ℕ → ℕ → RunState → Option RunState
  | 0, _, _ => none
  | fuel + 1, k, st =>
    if altK k < calculationsMaxHeight then
      match thermalStep m stack gah gp st (altK k) with
      | none => none
      | some (.inl st2) => runFrom m stack gah gp fuel (k + 1) st2
      | some (.inr stFin) => some stFin
    else
      some st

/-- `getThermalData` of thermal.js, with the globals
(`weatherStack`, `solarStrength`, `defaultGroundAbsoluteHumidity`,
`groundPressure`) made explicit parameters. -/
def getThermalData (m : MathPrims) (stack : List Sample)
    (solarStrength gah gp : ℚ) : Option ThermalData := do
  let t0 ← getTemperatureAt stack 0
  let st0 : RunState :=
    { thermalTop := calculationsMaxHeight
      cloudBase := calculationsMaxHeight
      strength := []
      impulse := (solarStrength * 1.2 - 0.1) * thermalInitialImpulse
      prev := { alt := 0, temp := t0, relHumi := getRelativeHumidity gah 0 gp t0 } }
  let stF ← runFrom m stack gah gp 100 0 st0
  pure { thermalTop := stF.thermalTop, cloudBase := stF.cloudBase,
         strength := stF.strength }

/-! ## Pointwise replay of the simulation loop

The loop state of `getThermalData` is re-expressed as explicit sequences
indexed by the iteration number, translated line by line from the same source
loop: `tempK`/`rhK` are the per-step temperature and relative humidity,
`gradK`/`multK`/`offK` the per-step gradient, inversion multiplier and
condensation offset, `cbK` the `data.cloudBase` value after each step and
`impK` the impulse after each step.  The extraction theorems below prove that
the output of `getThermalData` is described exactly by these sequences. -/

/-- Temperature delivered by `getTemperatureAt`, defaulted to `0` (only ever
used where the query is known to succeed). -/
def tempAtD (stack : List Sample) (a : ℚ) : ℚ :=
  (getTemperatureAt stack a).getD 0

/-- `prev.alt` at the start of iteration `k`. -/
def prevAltK : ℕ → ℚ
  | 0 => 0
  | k + 1 => altK k

/-- Temperature read at iteration `k`. -/
def tempK (stack : List Sample) (k : ℕ) : ℚ :=
  tempAtD stack (altK k)

/-- `prev.temp` at the start of iteration `k`. -/
def prevTempK (stack : List Sample) : ℕ → ℚ
  | 0 => tempAtD stack 0
  | k + 1 => tempK stack k

/-- Relative humidity of the rising air at iteration `k`: the fixed ground
absolute humidity against the local saturation density (the pressure argument
of `getRelativeHumidity` is unused by the source, so `0` is passed here). -/
def rhK (stack : List Sample) (gah : ℚ) (k : ℕ) : ℚ :=
  getRelativeHumidity gah (altK k) 0 (tempK stack k)

/-- Relative humidity of the rising air at ground level. -/
def rhGround (stack : List Sample) (gah : ℚ) : ℚ :=
  getRelativeHumidity gah 0 0 (tempAtD stack 0)

/-- `prev.relHumi` at the start of iteration `k`. -/
def prevRhK (stack : List Sample) (gah : ℚ) : ℕ → ℚ
  | 0 => rhGround stack gah
  | k + 1 => rhK stack gah k

/-- The lapse-rate `gradient` computed at iteration `k`. -/
def gradK (stack : List Sample) (k : ℕ) : ℚ :=
  (tempK stack k - prevTempK stack k) * (calculationResolution / 100)

/-- `data.cloudBase` after `k` iterations (`k = 0` is the initial sentinel
`calculationsMaxHeight`); iteration `k` re-records it exactly when the step's
relative humidity has reached `1` and the stored value still equals the
sentinel. -/
def cbK (stack : List Sample) (gah : ℚ) : ℕ → ℚ
  | 0 => calculationsMaxHeight
  | k + 1 =>
    if 1 ≤ rhK stack gah k ∧ cbK stack gah k = calculationsMaxHeight then
      prevAltK k + ((1 - prevRhK stack gah k) / (rhK stack gah k - prevRhK stack gah k))
        * (altK k - prevAltK k)
    else cbK stack gah k

/-- The `compensationOffset` of iteration `k` (computed against the cloud
base as recorded by the same iteration, exactly as in the source). -/
def offK (stack : List Sample) (gah : ℚ) (k : ℕ) : ℚ :=
  if altK k < cbK stack gah (k + 1) then 0
  else (altK k - prevAltK k) * (condensationCompensation / 100)

/-- The `compensationMulti` of iteration `k`. -/
def multK (stack : List Sample) (k : ℕ) : ℚ :=
  if gradK stack k < 0 then 1 else inversionCompensation

/-- The `impulse` after `k` iterations (`k = 0` is the initial impulse). -/
def impK (stack : List Sample) (gah solar : ℚ) : ℕ → ℚ
  | 0 => (solar * 1.2 - 0.1) * thermalInitialImpulse
  | k + 1 => impK stack gah solar k
      + (thermalStagnantGradient - gradK stack k) * thermalImpulseTangentRatio * multK stack k
      - offK stack gah k

/-- The full loop state after `k` uninterrupted iterations. -/
def stateK (stack : List Sample) (gah solar : ℚ) (k : ℕ) : RunState :=
  { thermalTop := calculationsMaxHeight
    cloudBase := cbK stack gah k
    strength := (List.range k).map (fun j => (altK j, impK stack gah solar (j + 1)))
    impulse := impK stack gah solar k
    prev := { alt := prevAltK k, temp := prevTempK stack k, relHumi := prevRhK stack gah k } }

/-! ## Concrete inputs used by witnesses and counterexamples -/

/-- A concrete instantiation of the two abstract transcendental primitives,
used wherever a witness has to evaluate the code on closed input (none of
the verified properties depend on the primitives' values). -/
def stubPrims : MathPrims := ⟨fun _ => 0, fun _ _ => 0⟩

/-- A concrete profile shaped like the application's default weather stack:
ground, 9500 m and 10000 m samples (dew points arbitrary). -/
def stackDemo : List Sample :=
  [⟨0, 25, 0, 10, 99⟩, ⟨9500, -41.5, 0, 1, 3⟩, ⟨10000, -20, 0, 0.5, 4⟩]

/-- The claimed cloud-base value of the step-`k` recording: the linear
interpolation of the altitude at which the relative humidity crosses `1`
within the step. -/
def crossFormulaK (stack : List Sample) (gah : ℚ) (k : ℕ) : ℚ :=
  prevAltK k + ((1 - prevRhK stack gah k) / (rhK stack gah k - prevRhK stack gah k))
    * (altK k - prevAltK k)

/-- A dry two-sample profile with the gentle lapse rate 0.14 °C / 100 m;
with solar strength 1/2 the impulse decreases by exactly 1/10 per step and
hits exactly 0 at 900 m. -/
def stackThermalDemo : List Sample := [⟨0, 25, 0, 0, 0⟩, ⟨10000, 11, 0, 0, 0⟩]

/-- The simulation output on `stackThermalDemo` (solar strength 1/2, dry
ground air). -/
def dThermalDemo : ThermalData :=
  (getThermalData stubPrims stackThermalDemo (1/2) 0 101325).getD ⟨0, 0, []⟩

/-- A dry two-sample profile with the steep lapse rate 1 °C / 100 m: the
impulse grows every step and the loop runs to its end. -/
def stackSteepLapse : List Sample := [⟨0, 25, 0, 0, 0⟩, ⟨10000, -75, 0, 0, 0⟩]

/-- Saturation density at 20 °C. -/
def satAt20 : ℚ := getSaturatedDensityFor 20

/-- Saturation density at 20.1 °C. -/
def satAt201 : ℚ := getSaturatedDensityFor (201/10)

/-- A ground absolute humidity engineered so that the cloud-base
interpolation of the very first step evaluates exactly to the sentinel
`calculationsMaxHeight`: with ground temperature 20 °C and 20.1 °C at 100 m,
the ground relative humidity `p` and the step-1 relative humidity `c`
satisfy `(1 - p) / (c - p) = 100` exactly. -/
def gahSaturated : ℚ := satAt20 * satAt201 / (100 * satAt20 - 99 * satAt201)

/-- The over-saturated inversion profile used with `gahSaturated`. -/
def stackInversion : List Sample :=
  [⟨0, 20, 0, 0, 0⟩, ⟨100, 201/10, 0, 0, 0⟩, ⟨10000, 30, 0, 0, 0⟩]

/-! ## Helper lemmas about the profile scan -/

/-- A strictly-`alt`-increasing stack is pairwise increasing. -/
theorem sortedAlt_pairwise {l : List Sample} (h : sortedAlt l) :
    l.Pairwise (fun a b => a.alt < b.alt) := by
  have : IsTrans Sample (fun a b => a.alt < b.alt) := ⟨fun _ _ _ => lt_trans⟩
  exact List.chain'_iff_pairwise.mp h

/-- In a sorted stack, the head has the smallest altitude. -/
theorem head_alt_le {l : List Sample} (h : sortedAlt l) (hne : l ≠ []) :
    ∀ t ∈ l, (l.head hne).alt ≤ t.alt := by
  intro t ht
  cases l with
  | nil => exact absurd rfl hne
  | cons s rest =>
    rcases List.mem_cons.mp ht with rfl | ht2
    · exact le_refl _
    · have hp := sortedAlt_pairwise h
      exact le_of_lt ((List.pairwise_cons.mp hp).1 t ht2)

/-- In a sorted stack, the last sample has the greatest altitude. -/
theorem le_getLast_alt {l : List Sample} (h : sortedAlt l) (hne : l ≠ []) :
    ∀ t ∈ l, t.alt ≤ (l.getLast hne).alt := by
  induction l with
  | nil => exact absurd rfl hne
  | cons s rest ih =>
    intro t ht
    cases rest with
    | nil =>
      rcases List.mem_cons.mp ht with rfl | ht2
      · exact le_refl _
      · cases ht2
    | cons b rest2 =>
      have hbn : b :: rest2 ≠ [] := List.cons_ne_nil _ _
      have hgl : (s :: b :: rest2).getLast hne = (b :: rest2).getLast hbn :=
        List.getLast_cons hbn
      have htail : sortedAlt (b :: rest2) := (List.chain'_cons.mp h).2
      have hsb : s.alt < b.alt := (List.chain'_cons.mp h).1
      rcases List.mem_cons.mp ht with rfl | ht2
      · rw [hgl]
        exact le_of_lt (lt_of_lt_of_le hsb (ih htail hbn b (List.mem_cons_self _ _)))
      · rw [hgl]
        exact ih htail hbn t ht2

/-- The scan of `getDataAt` hits an exact-altitude sample provided everything
before it lies strictly below the queried altitude. -/
theorem getDataAtGo_exact (altitude : ℚ) (f : Field) :
    ∀ (l₁ : List Sample) (s : Sample) (l₂ : List Sample) (below : Option Sample),
      (∀ t ∈ l₁, t.alt < altitude) → s.alt = altitude →
      getDataAtGo altitude f below (l₁ ++ s :: l₂) = some (s.get f) := by
  intro l₁
  induction l₁ with
  | nil =>
    intro s l₂ below _ hs
    simp [getDataAtGo, hs]
  | cons t l₁ ih =>
    intro s l₂ below hall hs
    have ht : t.alt < altitude := hall t (List.mem_cons_self _ _)
    have hne : ¬ t.alt = altitude := ne_of_lt ht
    simp only [List.cons_append, getDataAtGo, if_neg hne, if_pos ht]
    exact ih s l₂ (some t) (fun u hu => hall u (List.mem_cons_of_mem _ hu)) hs

/-- The scan of `getDataAt` interpolates between two adjacent samples
bracketing the queried altitude, provided everything before them lies
strictly below it. -/
theorem getDataAtGo_interp (altitude : ℚ) (f : Field) :
    ∀ (l₁ : List Sample) (lo hi : Sample) (l₂ : List Sample) (below : Option Sample),
      (∀ t ∈ l₁, t.alt < altitude) → lo.alt < altitude → altitude < hi.alt →
      getDataAtGo altitude f below (l₁ ++ lo :: hi :: l₂)
        = some (lo.get f + ((altitude - lo.alt) / (hi.alt - lo.alt)) * (hi.get f - lo.get f)) := by
  intro l₁
  induction l₁ with
  | nil =>
    intro lo hi l₂ below _ hlo hhi
    have hne : ¬ lo.alt = altitude := ne_of_lt hlo
    have hne2 : ¬ hi.alt = altitude := ne_of_gt hhi
    have hnlt : ¬ hi.alt < altitude := not_lt_of_gt hhi
    simp [getDataAtGo, hne, hne2, if_pos hlo, hnlt]
  | cons t l₁ ih =>
    intro lo hi l₂ below hall hlo hhi
    have ht : t.alt < altitude := hall t (List.mem_cons_self _ _)
    have hne : ¬ t.alt = altitude := ne_of_lt ht
    simp only [List.cons_append, getDataAtGo, if_neg hne, if_pos ht]
    exact ih lo hi l₂ (some t) (fun u hu => hall u (List.mem_cons_of_mem _ hu)) hlo hhi

/-- The scan of `getDataAt` falls off the end of the stack (the JavaScript
`above` stays `undefined`) when every sample lies strictly below the queried
altitude. -/
theorem getDataAtGo_none_of_all_lt (altitude : ℚ) (f : Field) :
    ∀ (l : List Sample) (below : Option Sample),
      (∀ t ∈ l, t.alt < altitude) → getDataAtGo altitude f below l = none := by
  intro l
  induction l with
  | nil => intro below _; rfl
  | cons t l ih =>
    intro below hall
    have ht : t.alt < altitude := hall t (List.mem_cons_self _ _)
    have hne : ¬ t.alt = altitude := ne_of_lt ht
    simp only [getDataAtGo, if_neg hne, if_pos ht]
    exact ih (some t) (fun u hu => hall u (List.mem_cons_of_mem _ hu))

/-- The scan of `setDataAt` mutates the named field in place when it reaches
an exact-altitude sample, provided everything before it lies strictly below
the target altitude. -/
theorem setDataAtGo_exact (altitude : ℚ) (f : Field) (v : ℚ) :
    ∀ (l₁ : List Sample) (s : Sample) (l₂ : List Sample) (i : ℕ) (below : Option ℕ),
      (∀ t ∈ l₁, t.alt < altitude) → s.alt = altitude →
      setDataAtGo altitude f v i below (l₁ ++ s :: l₂) = .inl (l₁ ++ s.set f v :: l₂) := by
  intro l₁
  induction l₁ with
  | nil =>
    intro s l₂ i below _ hs
    simp [setDataAtGo, hs]
  | cons t l₁ ih =>
    intro s l₂ i below hall hs
    have ht : t.alt < altitude := hall t (List.mem_cons_self _ _)
    have hne : ¬ t.alt = altitude := ne_of_lt ht
    simp only [List.cons_append, setDataAtGo, if_neg hne, if_pos ht, List.append_eq]
    rw [ih s l₂ (i + 1) (some i) (fun u hu => hall u (List.mem_cons_of_mem _ hu)) hs]

/-- The scan of `setDataAt` reports "not found" when no sample sits exactly
at the target altitude. -/
theorem setDataAtGo_inr (altitude : ℚ) (f : Field) (v : ℚ) :
    ∀ (l : List Sample) (i : ℕ) (below : Option ℕ),
      (∀ t ∈ l, t.alt ≠ altitude) →
      ∃ b, setDataAtGo altitude f v i below l = .inr b := by
  intro l
  induction l with
  | nil => intro i below _; exact ⟨below, rfl⟩
  | cons t l ih =>
    intro i below hall
    have hne : ¬ t.alt = altitude := hall t (List.mem_cons_self _ _)
    by_cases hlt : t.alt < altitude
    · obtain ⟨b, hb⟩ := ih (i + 1) (some i) (fun u hu => hall u (List.mem_cons_of_mem _ hu))
      refine ⟨b, ?_⟩
      simp only [setDataAtGo, if_neg hne, if_pos hlt, hb]
    · refine ⟨below, ?_⟩
      simp only [setDataAtGo, if_neg hne, if_neg hlt]

/-- `AutoMeteoData` aborts as soon as its first interpolation
(`getTemperatureAt`) fails. -/
theorem AutoMeteoData_none {m : MathPrims} {gp : ℚ} {stack : List Sample} {altitude : ℚ}
    (h : getTemperatureAt stack altitude = none) :
    AutoMeteoData m gp stack altitude = none := by
  simp [AutoMeteoData, h]

/-! ## C1, C4, C9: behaviour of `setDataAt` -/

/-- C1.  Updating a strictly-increasing profile at a fresh altitude strictly
between the lowest and highest sample altitudes does NOT preserve sortedness:
`setDataAt` splices the synthesized sample in before its lower neighbour
(`splice(below, 0, ...)` instead of `splice(below + 1, 0, ...)`), so the
stack `0 / 9500 / 10000` becomes `5000 / 0 / 9500 / 10000`.  This refutes the
claimed invariant on the concrete input. -/
theorem C1_insert_breaks_sorted_order :
    sortedAlt stackDemo ∧
    (setDataAt stubPrims 101325 stackDemo 5000 .temp 7).map (fun l => l.map (fun s => s.alt))
      = some [5000, 0, 9500, 10000] ∧
    (setDataAt stubPrims 101325 stackDemo 5000 .temp 7).map
      (fun l => decide (sortedAlt l)) = some false := by
  refine ⟨by decide, by decide, by decide⟩

/-- C4 (counterexample).  An exact-altitude update does NOT recompute the
sample's dew point: updating the ground temperature from 25 to 7 leaves the
stored dew point 99 untouched, although recomputing it from the new
temperature and the stored humidity gives a different value. -/
theorem C4_no_dewpoint_recompute_counterexample :
    setDataAt stubPrims 101325 stackDemo 0 .temp 7
      = some [⟨0, 7, 0, 10, 99⟩, ⟨9500, -41.5, 0, 1, 3⟩, ⟨10000, -20, 0, 0.5, 4⟩] ∧
    getDewPoint stubPrims 7
      (getRelativeHumidity 10 0 (getPressureAtAltitude stubPrims 101325 0 7) 7) ≠ 99 := by
  refine ⟨by decide, by decide⟩

/-- C4 (amended).  When a sample exists exactly at the target altitude,
`setDataAt` mutates the named field of that sample in place and leaves every
other field — in particular `dewPoint` — unchanged; no dew point is
recomputed. -/
theorem C4_update_in_place_keeps_dewPoint
    (m : MathPrims) (gp : ℚ) (stack l₁ l₂ : List Sample) (s : Sample)
    (altitude : ℚ) (f : Field) (v : ℚ)
    (hsort : sortedAlt stack) (hdec : stack = l₁ ++ s :: l₂) (halt : s.alt = altitude) :
    setDataAt m gp stack altitude f v = some (l₁ ++ s.set f v :: l₂) ∧
    (f ≠ Field.dewPoint → (s.set f v).dewPoint = s.dewPoint) := by
  constructor
  · have hall : ∀ t ∈ l₁, t.alt < altitude := by
      intro t ht
      have hp := sortedAlt_pairwise (hdec ▸ hsort)
      have := (List.pairwise_append.mp hp).2.2 t ht s (List.mem_cons_self _ _)
      exact halt ▸ this
    unfold setDataAt
    rw [hdec, setDataAtGo_exact altitude f v l₁ s l₂ 0 none hall halt]
  · intro hf
    cases f with
    | temp => rfl
    | wind => rfl
    | humidity => rfl
    | dewPoint => exact absurd rfl hf

/-- Witness for C4 (amended): in-place ground-temperature update of the
demo stack. -/
theorem C4_update_in_place_keeps_dewPoint_witness :
    setDataAt stubPrims 101325 stackDemo 0 .temp 7
      = some ([] ++ Sample.set ⟨0, 25, 0, 10, 99⟩ .temp 7
          :: [⟨9500, -41.5, 0, 1, 3⟩, ⟨10000, -20, 0, 0.5, 4⟩]) ∧
    (Field.temp ≠ Field.dewPoint →
      (Sample.set ⟨0, 25, 0, 10, 99⟩ .temp 7).dewPoint = (⟨0, 25, 0, 10, 99⟩ : Sample).dewPoint) :=
  C4_update_in_place_keeps_dewPoint stubPrims 101325 stackDemo []
    [⟨9500, -41.5, 0, 1, 3⟩, ⟨10000, -20, 0, 0.5, 4⟩] ⟨0, 25, 0, 10, 99⟩ 0 .temp 7
    (by decide) (by decide) (by decide)

/-! ## C2, C8: behaviour of `getDataAt` -/

/-- C2.  On a sorted profile, `getDataAt` returns the stored value of an
exact-altitude sample directly, and for an altitude bracketed by two adjacent
samples it returns the linear interpolation of the named field. -/
theorem C2_query_exact_or_interpolates
    (stack : List Sample) (altitude : ℚ) (f : Field)
    (h2 : 2 ≤ stack.length) (hsort : sortedAlt stack) :
    (∀ s ∈ stack, s.alt = altitude → getDataAt stack altitude f = some (s.get f)) ∧
    (∀ (l₁ : List Sample) (lo hi : Sample) (l₂ : List Sample),
      stack = l₁ ++ lo :: hi :: l₂ → lo.alt < altitude → altitude < hi.alt →
      getDataAt stack altitude f
        = some (lo.get f + ((altitude - lo.alt) / (hi.alt - lo.alt)) * (hi.get f - lo.get f))) := by
  constructor
  · intro s hmem hs
    obtain ⟨l₁, l₂, rfl⟩ := List.append_of_mem hmem
    have hp := sortedAlt_pairwise hsort
    have hall : ∀ t ∈ l₁, t.alt < altitude := by
      intro t ht
      have := (List.pairwise_append.mp hp).2.2 t ht s (List.mem_cons_self _ _)
      exact hs ▸ this
    exact getDataAtGo_exact altitude f l₁ s l₂ none hall hs
  · intro l₁ lo hi l₂ hdec hlo hhi
    subst hdec
    have hp := sortedAlt_pairwise hsort
    have hall : ∀ t ∈ l₁, t.alt < altitude := by
      intro t ht
      have := (List.pairwise_append.mp hp).2.2 t ht lo (List.mem_cons_self _ _)
      exact lt_trans this hlo
    exact getDataAtGo_interp altitude f l₁ lo hi l₂ none hall hlo hhi

/-- Witness for C2 on the demo stack: query at the exact ground altitude and
between the 0 m and 9500 m samples. -/
theorem C2_query_exact_or_interpolates_witness :
    (∀ s ∈ stackDemo, s.alt = 0 → getDataAt stackDemo 0 .temp = some (s.get .temp)) ∧
    (∀ (l₁ : List Sample) (lo hi : Sample) (l₂ : List Sample),
      stackDemo = l₁ ++ lo :: hi :: l₂ → lo.alt < 0 → (0 : ℚ) < hi.alt →
      getDataAt stackDemo 0 .temp
        = some (lo.get .temp + ((0 - lo.alt) / (hi.alt - lo.alt)) * (hi.get .temp - lo.get .temp))) :=
  C2_query_exact_or_interpolates stackDemo 0 .temp (by decide) (by decide)

/-- `getDataAt` fails (the JavaScript scan dereferences `undefined`) whenever
the altitude lies strictly outside the span of a sorted stack. -/
theorem getDataAt_none_out_of_range
    (stack : List Sample) (hne : stack ≠ []) (hsort : sortedAlt stack)
    (altitude : ℚ) (f : Field)
    (hout : altitude < (stack.head hne).alt ∨ (stack.getLast hne).alt < altitude) :
    getDataAt stack altitude f = none := by
  rcases hout with hlt | hgt
  · cases stack with
    | nil => exact absurd rfl hne
    | cons s rest =>
      have hne1 : ¬ s.alt = altitude := ne_of_gt hlt
      have hne2 : ¬ s.alt < altitude := not_lt_of_gt hlt
      simp [getDataAt, getDataAtGo, hne1, hne2]
  · exact getDataAtGo_none_of_all_lt altitude f stack none
      (fun t ht => lt_of_le_of_lt (le_getLast_alt hsort hne t ht) hgt)

/-- C8.  Querying a sorted profile of at least two samples at an altitude
strictly below the lowest sample or strictly above the highest sample fails
(no value is extrapolated). -/
theorem C8_query_outside_span_errors
    (stack : List Sample) (hne : stack ≠ []) (h2 : 2 ≤ stack.length)
    (hsort : sortedAlt stack) :
    (∀ (altitude : ℚ) (f : Field), altitude < (stack.head hne).alt →
      getDataAt stack altitude f = none) ∧
    (∀ (altitude : ℚ) (f : Field), (stack.getLast hne).alt < altitude →
      getDataAt stack altitude f = none) := by
  constructor
  · intro altitude f h
    exact getDataAt_none_out_of_range stack hne hsort altitude f (Or.inl h)
  · intro altitude f h
    exact getDataAt_none_out_of_range stack hne hsort altitude f (Or.inr h)

/-- Witness for C8 on the demo stack. -/
theorem C8_query_outside_span_errors_witness :
    (∀ (altitude : ℚ) (f : Field), altitude < ((stackDemo.head (by decide)).alt) →
      getDataAt stackDemo altitude f = none) ∧
    (∀ (altitude : ℚ) (f : Field), ((stackDemo.getLast (by decide)).alt) < altitude →
      getDataAt stackDemo altitude f = none) :=
  C8_query_outside_span_errors stackDemo (by decide) (by decide) (by decide)

/-- C9.  Updating a sorted profile of at least two samples at an absent
altitude strictly outside its span fails before anything is inserted: the
synthesis of the new sample (`AutoMeteoData`) already aborts on its first
out-of-range query, so no modified stack is ever produced. -/
theorem C9_update_outside_span_errors
    (m : MathPrims) (gp : ℚ) (stack : List Sample) (hne : stack ≠ [])
    (h2 : 2 ≤ stack.length) (hsort : sortedAlt stack)
    (altitude : ℚ) (f : Field) (v : ℚ)
    (hout : altitude < (stack.head hne).alt ∨ (stack.getLast hne).alt < altitude) :
    setDataAt m gp stack altitude f v = none := by
  have hnowhere : ∀ t ∈ stack, t.alt ≠ altitude := by
    intro t ht
    rcases hout with hlt | hgt
    · exact ne_of_gt (lt_of_lt_of_le hlt (head_alt_le hsort hne t ht))
    · exact ne_of_lt (lt_of_le_of_lt (le_getLast_alt hsort hne t ht) hgt)
  obtain ⟨b, hb⟩ := setDataAtGo_inr altitude f v stack 0 none hnowhere
  have htemp : getTemperatureAt stack altitude = none :=
    getDataAt_none_out_of_range stack hne hsort altitude .temp hout
  unfold setDataAt
  rw [hb, AutoMeteoData_none htemp]
  rfl

/-- Witness for C9 on the demo stack: update below ground level fails. -/
theorem C9_update_outside_span_errors_witness :
    setDataAt stubPrims 101325 stackDemo (-100) .temp 7 = none :=
  C9_update_outside_span_errors stubPrims 101325 stackDemo (by decide) (by decide)
    (by decide) (-100) .temp 7 (Or.inl (by decide))

/-! ## C10: negative saturated vapor density -/

/-- C10.  The cubic saturation fit is negative at −20 °C, and at any
temperature where it is negative a positive absolute humidity yields a
negative relative humidity, so the simulator's saturation test
`1 ≤ relativeHumidity` can never fire in such a layer. -/
theorem C10_negative_saturation_blocks_condensation
    (ah T alt p : ℚ) (hah : 0 < ah) (hT : getSaturatedDensityFor T < 0) :
    getSaturatedDensityFor (-20) < 0 ∧
    getRelativeHumidity ah alt p T < 0 ∧
    ¬ (1 ≤ getRelativeHumidity ah alt p T) := by
  have hneg : getRelativeHumidity ah alt p T < 0 := div_neg_of_pos_of_neg hah hT
  exact ⟨by decide, hneg, fun hc => absurd (lt_of_lt_of_le hneg (le_trans zero_le_one hc))
    (lt_irrefl _)⟩

/-- Witness for C10 at −20 °C with 1 g/m³ of moisture. -/
theorem C10_negative_saturation_blocks_condensation_witness :
    getSaturatedDensityFor (-20) < 0 ∧
    getRelativeHumidity 1 (-20) 0 (-20) < 0 ∧
    ¬ (1 ≤ getRelativeHumidity 1 (-20) 0 (-20)) :=
  C10_negative_saturation_blocks_condensation 1 (-20) (-20) 0 (by decide) (by decide)

/-! ## Extraction: the simulator output is described by the replay sequences -/

/-- One loop iteration maps the replayed state of step `k` to the replayed
state of step `k + 1` (or to the broken-out final state when the new impulse
is negative). -/
theorem thermalStep_stateK (m : MathPrims) (stack : List Sample) (gah gp solar : ℚ) (k : ℕ)
    (ht : getTemperatureAt stack (altK k) = some (tempK stack k)) :
    thermalStep m stack gah gp (stateK stack gah solar k) (altK k)
      = some (if impK stack gah solar (k + 1) < 0
          then Sum.inr
            { thermalTop := altK k
              cloudBase := cbK stack gah (k + 1)
              strength := (List.range (k + 1)).map (fun j => (altK j, impK stack gah solar (j + 1)))
              impulse := impK stack gah solar (k + 1)
              prev := (stateK stack gah solar k).prev }
          else Sum.inl (stateK stack gah solar (k + 1))) := by
  have hstr : (List.range (k + 1)).map (fun j => (altK j, impK stack gah solar (j + 1)))
      = (List.range k).map (fun j => (altK j, impK stack gah solar (j + 1)))
        ++ [(altK k, impK stack gah solar (k + 1))] := by
    rw [List.range_succ, List.map_append]
    rfl
  have hstate : stateK stack gah solar (k + 1)
      = { thermalTop := calculationsMaxHeight
          cloudBase := cbK stack gah (k + 1)
          strength := (List.range k).map (fun j => (altK j, impK stack gah solar (j + 1)))
            ++ [(altK k, impK stack gah solar (k + 1))]
          impulse := impK stack gah solar (k + 1)
          prev := { alt := altK k, temp := tempK stack k, relHumi := rhK stack gah k } } := by
    unfold stateK
    rw [hstr]
    exact rfl
  unfold thermalStep
  rw [ht, hstate, hstr]
  show (if impK stack gah solar (k + 1) < 0
      then some (Sum.inr
        ({ thermalTop := altK k
           cloudBase := cbK stack gah (k + 1)
           strength := (List.range k).map (fun j => (altK j, impK stack gah solar (j + 1)))
             ++ [(altK k, impK stack gah solar (k + 1))]
           impulse := impK stack gah solar (k + 1)
           prev := (stateK stack gah solar k).prev } : RunState))
      else some (Sum.inl
        ({ thermalTop := calculationsMaxHeight
           cloudBase := cbK stack gah (k + 1)
           strength := (List.range k).map (fun j => (altK j, impK stack gah solar (j + 1)))
             ++ [(altK k, impK stack gah solar (k + 1))]
           impulse := impK stack gah solar (k + 1)
           prev := { alt := altK k, temp := tempK stack k, relHumi := rhK stack gah k } } : RunState)))
    = some (if impK stack gah solar (k + 1) < 0
      then Sum.inr
        ({ thermalTop := altK k
           cloudBase := cbK stack gah (k + 1)
           strength := (List.range k).map (fun j => (altK j, impK stack gah solar (j + 1)))
             ++ [(altK k, impK stack gah solar (k + 1))]
           impulse := impK stack gah solar (k + 1)
           prev := (stateK stack gah solar k).prev } : RunState)
      else Sum.inl
        ({ thermalTop := calculationsMaxHeight
           cloudBase := cbK stack gah (k + 1)
           strength := (List.range k).map (fun j => (altK j, impK stack gah solar (j + 1)))
             ++ [(altK k, impK stack gah solar (k + 1))]
           impulse := impK stack gah solar (k + 1)
           prev := { alt := altK k, temp := tempK stack k, relHumi := rhK stack gah k } } : RunState))
  by_cases h : impK stack gah solar (k + 1) < 0
  · rw [if_pos h, if_pos h]
  · rw [if_neg h, if_neg h]

/-- A loop iteration fails when the temperature query fails. -/
theorem thermalStep_none {m : MathPrims} {stack : List Sample} {gah gp : ℚ}
    {st : RunState} {altitude : ℚ}
    (h : getTemperatureAt stack altitude = none) :
    thermalStep m stack gah gp st altitude = none := by
  simp [thermalStep, h]

/-- Master invariant of the simulation loop: started at step `k` in the
replayed state, a successful run ends after some step count `n` with the
replayed strength table and cloud base, and the termination condition
follows the first strictly negative impulse. -/
theorem runFrom_stateK (m : MathPrims) (stack : List Sample) (gah gp solar : ℚ) :
    ∀ (fuel k : ℕ), 100 ≤ k + fuel → k ≤ 99 →
    ∀ (fin : RunState),
      runFrom m stack gah gp fuel k (stateK stack gah solar k) = some fin →
      ∃ n, k ≤ n ∧ n ≤ 99 ∧
        fin.strength = (List.range n).map (fun j => (altK j, impK stack gah solar (j + 1))) ∧
        fin.cloudBase = cbK stack gah n ∧
        ((n = 99 ∧ fin.thermalTop = calculationsMaxHeight
            ∧ (∀ j, k ≤ j → j < 99 → 0 ≤ impK stack gah solar (j + 1)))
          ∨ (k < n ∧ impK stack gah solar n < 0 ∧ fin.thermalTop = altK (n - 1)
            ∧ (∀ j, k ≤ j → j + 1 < n → 0 ≤ impK stack gah solar (j + 1)))) := by
  intro fuel
  induction fuel with
  | zero => intro k hf hk fin hrun; omega
  | succ fuel ih =>
    intro k hf hk fin hrun
    rw [runFrom] at hrun
    by_cases hg : altK k < calculationsMaxHeight
    · rw [if_pos hg] at hrun
      have hk99 : k < 99 := (altK_lt_iff k).mp hg
      cases h : getTemperatureAt stack (altK k) with
      | none =>
        rw [thermalStep_none h] at hrun
        cases hrun
      | some t =>
        have ht : getTemperatureAt stack (altK k) = some (tempK stack k) := by
          simp [tempK, tempAtD, h]
        rw [thermalStep_stateK m stack gah gp solar k ht] at hrun
        by_cases hc : impK stack gah solar (k + 1) < 0
        · rw [if_pos hc] at hrun
          have hfin : fin =
              { thermalTop := altK k
                cloudBase := cbK stack gah (k + 1)
                strength := (List.range (k + 1)).map (fun j => (altK j, impK stack gah solar (j + 1)))
                impulse := impK stack gah solar (k + 1)
                prev := (stateK stack gah solar k).prev } := by
            cases hrun
            rfl
          refine ⟨k + 1, Nat.le_succ k, by omega, ?_, ?_, Or.inr ⟨Nat.lt_succ_self k, hc, ?_, ?_⟩⟩
          · rw [hfin]
          · rw [hfin]
          · rw [hfin]
            simp
          · intro j hj1 hj2
            omega
        · rw [if_neg hc] at hrun
          obtain ⟨n, hkn, hn99, hstr, hcb, hcase⟩ :=
            ih (k + 1) (by omega) (by omega) fin hrun
          refine ⟨n, by omega, hn99, hstr, hcb, ?_⟩
          rcases hcase with ⟨h99, htop, hpos⟩ | ⟨hlt, hneg, htop, hpos⟩
          · refine Or.inl ⟨h99, htop, ?_⟩
            intro j hj1 hj2
            rcases Nat.eq_or_lt_of_le hj1 with rfl | hj3
            · exact le_of_not_lt hc
            · exact hpos j (by omega) hj2
          · refine Or.inr ⟨by omega, hneg, htop, ?_⟩
            intro j hj1 hj2
            rcases Nat.eq_or_lt_of_le hj1 with rfl | hj3
            · exact le_of_not_lt hc
            · exact hpos j (by omega) hj2
    · rw [if_neg hg] at hrun
      have hk99 : k = 99 := by
        have := (altK_lt_iff k).not.mp hg
        omega
      have hfin : fin = stateK stack gah solar k := by
        cases hrun
        rfl
      subst hk99
      refine ⟨99, le_refl _, le_refl _, ?_, ?_, Or.inl ⟨rfl, ?_, ?_⟩⟩
      · rw [hfin]
        exact rfl
      · rw [hfin]
        exact rfl
      · rw [hfin]
        exact rfl
      · intro j hj1 hj2
        omega

/-- Extraction: a successful `getThermalData` output is fully described by
the replay sequences: its strength table lists `(altK j, impK (j+1))` for the
`n` executed steps, its cloud base is `cbK n`, and either the run completed
(`n = 99`, `thermalTop` is the ceiling, no impulse was negative) or it broke
at the first strictly negative impulse `impK n` with `thermalTop = altK (n-1)`. -/
theorem getThermalData_replay (m : MathPrims) (stack : List Sample) (solar gah gp : ℚ)
    (d : ThermalData) (hrun : getThermalData m stack solar gah gp = some d) :
    ∃ n, n ≤ 99 ∧
      d.strength = (List.range n).map (fun j => (altK j, impK stack gah solar (j + 1))) ∧
      d.cloudBase = cbK stack gah n ∧
      ((n = 99 ∧ d.thermalTop = calculationsMaxHeight
          ∧ (∀ j, j < 99 → 0 ≤ impK stack gah solar (j + 1)))
        ∨ (1 ≤ n ∧ impK stack gah solar n < 0 ∧ d.thermalTop = altK (n - 1)
          ∧ (∀ j, j + 1 < n → 0 ≤ impK stack gah solar (j + 1)))) := by
  rw [getThermalData] at hrun
  cases h0 : getTemperatureAt stack 0 with
  | none =>
    rw [h0] at hrun
    cases hrun
  | some t0 =>
    rw [h0] at hrun
    simp only [Option.bind_eq_bind, Option.some_bind] at hrun
    have hst0 : ({
        thermalTop := calculationsMaxHeight
        cloudBase := calculationsMaxHeight
        strength := []
        impulse := (solar * 1.2 - 0.1) * thermalInitialImpulse
        prev := { alt := 0, temp := t0, relHumi := getRelativeHumidity gah 0 gp t0 } } : RunState)
        = stateK stack gah solar 0 := by
      unfold stateK
      have htd : tempAtD stack 0 = t0 := by
        simp [tempAtD, h0]
      simp [cbK, impK, prevAltK, prevTempK, prevRhK, rhGround, htd, getRelativeHumidity]
    rw [hst0] at hrun
    cases hF : runFrom m stack gah gp 100 0 (stateK stack gah solar 0) with
    | none =>
      rw [hF] at hrun
      cases hrun
    | some stF =>
      rw [hF] at hrun
      simp only [Option.some_bind, Option.pure_def] at hrun
      have hd : d = {
          thermalTop := stF.thermalTop
          cloudBase := stF.cloudBase
          strength := stF.strength } := by
        cases hrun
        rfl
      obtain ⟨n, _, hn99, hstr, hcb, hcase⟩ :=
        runFrom_stateK m stack gah gp solar 100 0 (by omega) (by omega) stF hF
      refine ⟨n, hn99, ?_, ?_, ?_⟩
      · rw [hd]
        exact hstr
      · rw [hd]
        exact hcb
      · rcases hcase with ⟨h99, htop, hpos⟩ | ⟨hlt, hneg, htop, hpos⟩
        · exact Or.inl ⟨h99, by rw [hd]; exact htop, fun j hj => hpos j (Nat.zero_le j) hj⟩
        · exact Or.inr ⟨hlt, hneg, by rw [hd]; exact htop, fun j hj => hpos j (Nat.zero_le j) hj⟩

/-! ## C3, C5, C6, C7: behaviour of `getThermalData` -/

/-- Every loop step spans exactly 100 m. -/
theorem altK_sub_prevAltK : ∀ k : ℕ, altK k - prevAltK k = 100
  | 0 => by
    unfold altK prevAltK calculationResolution
    norm_num
  | k + 1 => by
    simp only [altK, prevAltK, calculationResolution]
    push_cast
    ring

/-- Characterization of the recorded cloud base when the ground relative
humidity is below saturation: it stays at the sentinel while every executed
step is unsaturated, and from the first saturated step on it permanently
holds that step's interpolated crossing altitude (which is then provably
distinct from the sentinel). -/
theorem cbK_char (stack : List Sample) (gah : ℚ) (hg : rhGround stack gah < 1) :
    ∀ n, n ≤ 99 →
      ((∀ k, k < n → rhK stack gah k < 1) ∧ cbK stack gah n = calculationsMaxHeight)
      ∨ (∃ k, k < n ∧ 1 ≤ rhK stack gah k ∧ (∀ j, j < k → rhK stack gah j < 1)
          ∧ cbK stack gah n = crossFormulaK stack gah k
          ∧ cbK stack gah n ≠ calculationsMaxHeight) := by
  intro n
  induction n with
  | zero =>
    intro _
    exact Or.inl ⟨fun k hk => absurd hk (Nat.not_lt_zero k), rfl⟩
  | succ n ih =>
    intro hn99
    rcases ih (by omega) with ⟨hall, hcb⟩ | ⟨k, hk, hr, hfirst, hcb, hne⟩
    · by_cases hr : 1 ≤ rhK stack gah n
      · have hcbn : cbK stack gah (n + 1) = crossFormulaK stack gah n := by
          simp only [cbK]
          rw [if_pos ⟨hr, hcb⟩]
          rfl
        have hprev : prevRhK stack gah n < 1 := by
          cases n with
          | zero => exact hg
          | succ m => exact hall m (Nat.lt_succ_self m)
        have hgap : (0 : ℚ) < rhK stack gah n - prevRhK stack gah n := by linarith
        have hfle : (1 - prevRhK stack gah n) / (rhK stack gah n - prevRhK stack gah n) ≤ 1 := by
          rw [div_le_one hgap]
          linarith
        have hstep : altK n - prevAltK n = 100 := altK_sub_prevAltK n
        have hval : crossFormulaK stack gah n ≤ altK n := by
          unfold crossFormulaK
          rw [hstep]
          nlinarith
        have hlt : altK n < calculationsMaxHeight := (altK_lt_iff n).mpr (by omega)
        refine Or.inr ⟨n, Nat.lt_succ_self n, hr, hall, hcbn, ?_⟩
        rw [hcbn]
        exact ne_of_lt (lt_of_le_of_lt hval hlt)
      · have hcbn : cbK stack gah (n + 1) = cbK stack gah n := by
          simp only [cbK]
          rw [if_neg]
          intro hc
          exact hr hc.1
        refine Or.inl ⟨?_, hcbn ▸ hcb⟩
        intro k hk
        rcases Nat.lt_succ_iff_lt_or_eq.mp hk with hk2 | rfl
        · exact hall k hk2
        · exact lt_of_not_ge hr
    · have hcbn : cbK stack gah (n + 1) = cbK stack gah n := by
        simp only [cbK]
        rw [if_neg]
        intro hc
        exact hne hc.2
      exact Or.inr ⟨k, by omega, hr, hfirst, hcbn ▸ hcb, hcbn ▸ hne⟩

/-- C3 (amended).  `thermalTop` equals the first step altitude at which the
integrated impulse is STRICTLY negative, and equals `calculationsMaxHeight`
if the impulse never goes strictly below zero at any step.  (The source tests
`impulse < 0`, not `impulse <= 0`.) -/
theorem C3_thermalTop_first_negative (m : MathPrims) (stack : List Sample)
    (solar gah gp : ℚ) (d : ThermalData)
    (hrun : getThermalData m stack solar gah gp = some d) :
    d.thermalTop
      = ((d.strength.find? (fun p => decide (p.2 < 0))).map Prod.fst).getD
          calculationsMaxHeight := by
  obtain ⟨n, hn99, hstr, hcb, hcase⟩ := getThermalData_replay m stack solar gah gp d hrun
  rcases hcase with ⟨h99, htop, hpos⟩ | ⟨h1, hneg, htop, hpos⟩
  · rw [htop, hstr]
    have hnone : ((List.range n).map (fun j => (altK j, impK stack gah solar (j + 1)))).find?
        (fun p => decide (p.2 < 0)) = none := by
      rw [List.find?_eq_none]
      intro x hx
      obtain ⟨j, hj, rfl⟩ := List.mem_map.mp hx
      have hj99 : j < 99 := h99 ▸ List.mem_range.mp hj
      simp only [decide_eq_true_eq]
      exact not_lt.mpr (hpos j hj99)
    rw [hnone]
    rfl
  · obtain ⟨msub, rfl⟩ : ∃ msub, n = msub + 1 := ⟨n - 1, by omega⟩
    rw [hstr, List.range_succ, List.map_append, List.find?_append]
    have hnone : ((List.range msub).map (fun j => (altK j, impK stack gah solar (j + 1)))).find?
        (fun p => decide (p.2 < 0)) = none := by
      rw [List.find?_eq_none]
      intro x hx
      obtain ⟨j, hj, rfl⟩ := List.mem_map.mp hx
      have hjm : j < msub := List.mem_range.mp hj
      simp only [decide_eq_true_eq]
      exact not_lt.mpr (hpos j (by omega))
    rw [hnone, Option.none_or]
    have hfind : (List.map (fun j => (altK j, impK stack gah solar (j + 1))) [msub]).find?
        (fun p => decide (p.2 < 0)) = some (altK msub, impK stack gah solar (msub + 1)) := by
      simp [List.find?, decide_eq_true hneg]
    rw [hfind, htop]
    rfl

/-- C7.  The impulse values of the strength series satisfy the recurrence:
the entry of step 0 extends the initial impulse
`(solarStrength * 1.2 - 0.1) * thermalInitialImpulse`, and each entry adds
`(thermalStagnantGradient - gradient) * thermalImpulseTangentRatio *
compensationMulti - compensationOffset` to the previous entry, where
`gradient = (temp - prevTemp) * (calculationResolution / 100)` (`gradK`),
`compensationMulti` is `1` for a negative gradient and `inversionCompensation`
otherwise (`multK`), and `compensationOffset` is `0` below the recorded cloud
base and `(step size) * (condensationCompensation / 100)` at or above it
(`offK`). -/
theorem C7_impulse_recurrence (m : MathPrims) (stack : List Sample)
    (solar gah gp : ℚ) (d : ThermalData)
    (hrun : getThermalData m stack solar gah gp = some d) :
    ∀ k, k < d.strength.length →
      (d.strength.getD k (0, 0)).2
        = (if k = 0 then (solar * 1.2 - 0.1) * thermalInitialImpulse
           else (d.strength.getD (k - 1) (0, 0)).2)
          + (thermalStagnantGradient - gradK stack k) * thermalImpulseTangentRatio
            * multK stack k
          - offK stack gah k := by
  obtain ⟨n, hn99, hstr, hcb, hcase⟩ := getThermalData_replay m stack solar gah gp d hrun
  have hlen : d.strength.length = n := by
    rw [hstr, List.length_map, List.length_range]
  have hget : ∀ k, k < n → d.strength.getD k (0, 0) = (altK k, impK stack gah solar (k + 1)) := by
    intro k hk
    rw [hstr, List.getD_eq_getElem?_getD, List.getElem?_map, List.getElem?_range hk]
    rfl
  intro k hk
  rw [hlen] at hk
  rcases Nat.eq_zero_or_pos k with rfl | hkpos
  · rw [hget 0 hk]
    show impK stack gah solar 1 = _
    simp [impK]
  · obtain ⟨j, rfl⟩ : ∃ j, k = j + 1 := ⟨k - 1, by omega⟩
    simp only [Nat.add_sub_cancel, if_neg (Nat.succ_ne_zero j)]
    rw [hget (j + 1) hk, hget j (by omega)]
    show impK stack gah solar (j + 2) = _
    rw [impK]

/-- C5 (amended).  The strength series has one entry per executed step, at
consecutive multiples of `calculationResolution` in ascending order; when the
impulse never goes negative the loop stops strictly BELOW the ceiling
(`altitude < calculationsMaxHeight`), so `thermalTop = calculationsMaxHeight`
while the last strength entry sits at
`calculationsMaxHeight - calculationResolution`; when the thermal stops early
the last entry's altitude equals `thermalTop`. -/
theorem C5_strength_altitudes (m : MathPrims) (stack : List Sample)
    (solar gah gp : ℚ) (d : ThermalData)
    (hrun : getThermalData m stack solar gah gp = some d) :
    d.strength.map Prod.fst = (List.range d.strength.length).map altK ∧
    (d.thermalTop = calculationsMaxHeight →
      d.strength.length = 99 ∧
      (d.strength.map Prod.fst).getLast? = some (calculationsMaxHeight - calculationResolution)) ∧
    (d.thermalTop ≠ calculationsMaxHeight →
      (d.strength.map Prod.fst).getLast? = some d.thermalTop) := by
  obtain ⟨n, hn99, hstr, hcb, hcase⟩ := getThermalData_replay m stack solar gah gp d hrun
  have hlen : d.strength.length = n := by
    rw [hstr, List.length_map, List.length_range]
  have hmap : d.strength.map Prod.fst = (List.range n).map altK := by
    rw [hstr, List.map_map]
    rfl
  refine ⟨by rw [hmap, hlen], ?_, ?_⟩
  · intro htopmax
    rcases hcase with ⟨h99, _, _⟩ | ⟨h1, _, htop, _⟩
    · subst h99
      refine ⟨hlen, ?_⟩
      rw [hmap]
      decide
    · exfalso
      have hlt : altK (n - 1) < calculationsMaxHeight := (altK_lt_iff (n - 1)).mpr (by omega)
      rw [htop] at htopmax
      exact absurd htopmax (ne_of_lt hlt)
  · intro htopne
    rcases hcase with ⟨_, htop, _⟩ | ⟨h1, _, htop, _⟩
    · exact absurd htop htopne
    · obtain ⟨msub, rfl⟩ : ∃ msub, n = msub + 1 := ⟨n - 1, by omega⟩
      rw [hmap, htop, List.getLast?_eq_getElem?, List.length_map, List.length_range]
      rw [List.getElem?_map, List.getElem?_range (by omega : msub + 1 - 1 < msub + 1)]
      rfl

/-- C6 (amended).  Provided the ground-level relative humidity of the rising
air is strictly below `1`, `cloudBase` is recorded at most once, at the first
executed step whose relative humidity reaches `1`, with the claimed
interpolation value `crossFormulaK`; later crossings do not change it, and it
equals the sentinel `calculationsMaxHeight` when saturation is never reached
among the executed steps.  (Without the proviso the recorded value can
collide with the sentinel, see the counterexample.) -/
theorem C6_cloudBase_first_crossing (m : MathPrims) (stack : List Sample)
    (solar gah gp : ℚ) (d : ThermalData)
    (hrun : getThermalData m stack solar gah gp = some d)
    (hg : rhGround stack gah < 1) :
    (∃ k, k < d.strength.length ∧ 1 ≤ rhK stack gah k
        ∧ (∀ j, j < k → rhK stack gah j < 1)
        ∧ d.cloudBase = crossFormulaK stack gah k)
    ∨ ((∀ k, k < d.strength.length → rhK stack gah k < 1)
        ∧ d.cloudBase = calculationsMaxHeight) := by
  obtain ⟨n, hn99, hstr, hcb, hcase⟩ := getThermalData_replay m stack solar gah gp d hrun
  have hlen : d.strength.length = n := by
    rw [hstr, List.length_map, List.length_range]
  rcases cbK_char stack gah hg n hn99 with ⟨hall, hcbn⟩ | ⟨k, hk, hr, hfirst, hcbn, _⟩
  · exact Or.inr ⟨fun k hk => hall k (hlen ▸ hk), hcb.trans hcbn⟩
  · exact Or.inl ⟨k, hlen ▸ hk, hr, hfirst, hcb.trans hcbn⟩

/-- C3 (counterexample).  On a profile where the impulse hits exactly `0` at
900 m, the first step altitude with impulse ≤ 0 is 900 but the loop only
stops on a strictly negative impulse, so `thermalTop` is 1000. -/
theorem C3_thermalTop_zero_impulse_counterexample :
    (getThermalData stubPrims stackThermalDemo (1/2) 0 101325).map
      (fun d => ((((d.strength.find? (fun p => decide (p.2 ≤ 0))).map Prod.fst).getD
          calculationsMaxHeight), d.thermalTop))
      = some (900, 1000) := by
  decide

/-- Witness for C3 (amended) on the exact-zero demo run. -/
theorem C3_thermalTop_first_negative_witness :
    dThermalDemo.thermalTop
      = ((dThermalDemo.strength.find? (fun p => decide (p.2 < 0))).map Prod.fst).getD
          calculationsMaxHeight :=
  C3_thermalTop_first_negative stubPrims stackThermalDemo (1/2) 0 101325 dThermalDemo
    (by decide)

/-- C5 (counterexample).  On a steep-lapse profile the impulse never goes
negative: the loop executes steps 100..9900 only (the loop guard is strict),
`thermalTop = 10000`, and the last strength entry's altitude is 9900, not
`thermalTop`. -/
theorem C5_incomplete_last_step_counterexample :
    (getThermalData stubPrims stackSteepLapse (4/5) 0 101325).map
      (fun d => (d.thermalTop, (d.strength.map Prod.fst).getLast?, d.strength.length,
        decide ((d.strength.map Prod.fst).getLast? = some d.thermalTop)))
      = some (10000, some 9900, 99, false) := by
  decide

/-- Witness for C5 (amended) on the exact-zero demo run. -/
theorem C5_strength_altitudes_witness :
    dThermalDemo.strength.map Prod.fst = (List.range dThermalDemo.strength.length).map altK ∧
    (dThermalDemo.thermalTop = calculationsMaxHeight →
      dThermalDemo.strength.length = 99 ∧
      (dThermalDemo.strength.map Prod.fst).getLast?
        = some (calculationsMaxHeight - calculationResolution)) ∧
    (dThermalDemo.thermalTop ≠ calculationsMaxHeight →
      (dThermalDemo.strength.map Prod.fst).getLast? = some dThermalDemo.thermalTop) :=
  C5_strength_altitudes stubPrims stackThermalDemo (1/2) 0 101325 dThermalDemo (by decide)

/-- C6 (counterexample).  With a saturated ground layer engineered so that
the first step's interpolated cloud base equals exactly the sentinel
`calculationsMaxHeight`, the first (and claimed only) recording at step 0
yields `crossFormulaK = calculationsMaxHeight`; the claim then forces
`cloudBase = calculationsMaxHeight`, but the run re-records at a later step
and returns a different value. -/
theorem C6_cloudBase_sentinel_collision_counterexample :
    1 ≤ rhK stackInversion gahSaturated 0 ∧
    crossFormulaK stackInversion gahSaturated 0 = calculationsMaxHeight ∧
    (getThermalData stubPrims stackInversion 2 gahSaturated 101325).map
      (fun d => (decide (0 < d.strength.length), decide (d.cloudBase = calculationsMaxHeight)))
      = some (true, false) := by
  refine ⟨by decide, by decide, by decide⟩

/-- Witness for C6 (amended) on the dry demo run (no saturation, sentinel
kept). -/
theorem C6_cloudBase_first_crossing_witness :
    (∃ k, k < dThermalDemo.strength.length ∧ 1 ≤ rhK stackThermalDemo 0 k
        ∧ (∀ j, j < k → rhK stackThermalDemo 0 j < 1)
        ∧ dThermalDemo.cloudBase = crossFormulaK stackThermalDemo 0 k)
    ∨ ((∀ k, k < dThermalDemo.strength.length → rhK stackThermalDemo 0 k < 1)
        ∧ dThermalDemo.cloudBase = calculationsMaxHeight) :=
  C6_cloudBase_first_crossing stubPrims stackThermalDemo (1/2) 0 101325 dThermalDemo
    (by decide) (by decide)

/-- Witness for C7 on the exact-zero demo run, at step 5. -/
theorem C7_impulse_recurrence_witness :
    5 < dThermalDemo.strength.length ∧
    (dThermalDemo.strength.getD 5 (0, 0)).2
      = (if 5 = 0 then ((1:ℚ)/2 * 1.2 - 0.1) * thermalInitialImpulse
         else (dThermalDemo.strength.getD (5 - 1) (0, 0)).2)
        + (thermalStagnantGradient - gradK stackThermalDemo 5) * thermalImpulseTangentRatio
          * multK stackThermalDemo 5
        - offK stackThermalDemo 0 5 :=
  ⟨by decide,
    C7_impulse_recurrence stubPrims stackThermalDemo (1/2) 0 101325 dThermalDemo (by decide)
      5 (by decide)⟩

end ThermalMagic
